import Mathlib

/-!
Shallow embedding of the OxaPay/Telegram activation-key server
(src/server/src/index.js).

The server keeps two process-local JS Maps:
  pendingOrders   : orderKey -> order record   (keyed by String(chatId) after
                    register, and additionally by the processor invoice id
                    after a successful invoice creation)
  activationKeys  : key -> { chatId, packageId, createdAt }

JSON values reaching the handlers are modelled by `JVal` (absent fields are
`JVal.undef`, mirroring JavaScript property access on missing keys).  JS `Map`s
are modelled as association lists over `JVal` keys; JS `Map` keys are unique,
and on lists with unique keys the operations below agree with `Map.get`,
`Map.set` and `Map.delete` (where the JS operations touch the single matching
entry, `jset` replaces the first match and `jdelete` filters all matches —
identical behaviour when keys are unique, which holds for every reachable
store).

External collaborators (node `crypto` HMAC, `JSON.stringify`, the `uuid`
package, wall-clock timestamps) are passed in as parameters: the handlers use
them as opaque values exactly as the JS code does.
-/

/-- A JavaScript value as it appears in a parsed JSON request body: absent
(`undefined`), a string, or an (integral) number. -/
inductive JVal where
  | undef
  | str (s : String)
  | num (n : Int)
deriving DecidableEq, Repr

/-- JS truthiness test used by the handlers' validation guards (`!chatId`
etc.): `undefined`, the empty string and the number 0 are falsy. -/
def JVal.isFalsy : JVal → Bool
  | .undef => true
  | .str s => s == ""
  | .num n => n == 0

/-- JS `String(v)` coercion for the values `JVal` models. -/
def JVal.toJsString : JVal → String
  | .undef => "undefined"
  | .str s => s
  | .num n => toString n

/-- `Map.get` on the association-list model: the value of the first entry
whose key equals `k`, if any. -/
def jget {β : Type} : List (JVal × β) → JVal → Option β
  | [], _ => none
  | (k', v) :: rest, k => if k' = k then some v else jget rest k

/-- `Map.set`: replace the value of the (first) entry with key `k`, or append
a new entry when the key is absent. -/
def jset {β : Type} : List (JVal × β) → JVal → β → List (JVal × β)
  | [], k, v => [(k, v)]
  | (k', v') :: rest, k, v =>
      if k' = k then (k, v) :: rest else (k', v') :: jset rest k v

/-- `Map.delete`: remove the entries with key `k`. -/
def jdelete {β : Type} (m : List (JVal × β)) (k : JVal) : List (JVal × β) :=
  m.filter (fun p => decide (p.1 ≠ k))

/-- Number of entries stored under key `k`. -/
def countKey {β : Type} (m : List (JVal × β)) (k : JVal) : Nat :=
  (m.filter (fun p => decide (p.1 = k))).length

/-- A value stored in `pendingOrders`.  `register` writes
`\x7b chatId, username, displayName, registeredAt \x7d`; invoice creation writes
`\x7b chatId, packageId, amount, currency \x7d`.  Fields a writer does not set are
`JVal.undef`, which is what JS property access returns on the other record
shape.  `chatId` is a `String` because both writers store `String(chatId)`. -/
structure OrderInfo where
  chatId : String
  username : JVal := .undef
  displayName : JVal := .undef
  registeredAt : JVal := .undef
  packageId : JVal := .undef
  amount : JVal := .undef
  currency : JVal := .undef
deriving DecidableEq, Repr

/-- A value stored in `activationKeys` by the webhook handler. -/
structure KeyInfo where
  chatId : String
  packageId : JVal
  createdAt : String
deriving DecidableEq, Repr

/-- The two in-memory stores of the server. -/
structure ServerState where
  pendingOrders : List (JVal × OrderInfo)
  activationKeys : List (JVal × KeyInfo)
deriving DecidableEq, Repr

/-- The empty initial state (fresh process). -/
def initialState : ServerState := ⟨[], []⟩

/-- The `custom` correlation object embedded in the invoice and echoed back by
the processor. -/
structure CustomMeta where
  chatId : JVal := .undef
deriving DecidableEq, Repr

/-- Parsed webhook request body: `\x7b status, invoice_id, custom \x7d`. -/
structure WebhookPayloadT where
  status : JVal := .undef
  invoice_id : JVal := .undef
  custom : Option CustomMeta := none
deriving DecidableEq, Repr

/-- Configuration and external collaborators of the webhook path:
the optional `OXAPAY_CALLBACK_SECRET`, node crypto's
`createHmac('sha256', key).update(msg).digest('hex')` (lowercase-hex HMAC,
opaque here), and `JSON.stringify` on a parsed payload (opaque here). -/
structure Cfg where
  callbackSecret : Option String
  hmacSha256Hex : String → String → String
  stringify : WebhookPayloadT → String

/-- `verifyOxaPaySignature(payload, providedSignature)` (index.js:86-96):
skipped (true) when no callback secret is configured; otherwise the
lowercase-hex HMAC-SHA256 of `JSON.stringify(payload)` keyed by the secret is
compared with `===` against the provided header value (`none` models a missing
`x-oxapay-signature` header, which never equals the computed string). -/
def verifyOxaPaySignature (cfg : Cfg) (payload : WebhookPayloadT)
    (providedSignature : Option String) : Bool :=
  match cfg.callbackSecret with
  | none => true
  | some secret =>
      providedSignature == some (cfg.hmacSha256Hex secret (cfg.stringify payload))

/-- `generateActivationKey()` (index.js:101-103): the v4 UUID with every dash
removed (the global-dash replace) and the result uppercased.  The `uuid` value
is the external random input, passed in as the argument. -/
def generateActivationKey (uuid : String) : String :=
  String.mk ((uuid.data.filter (fun c => decide (c ≠ '-'))).map Char.toUpper)

/-- Request body of POST /api/telegram/register. -/
structure RegisterReq where
  chatId : JVal := .undef
  username : JVal := .undef
  displayName : JVal := .undef
deriving DecidableEq, Repr

/-- Response of POST /api/telegram/register. -/
inductive RegisterRes where
  | badRequest
  | registered
deriving DecidableEq, Repr

/-- HTTP status code attached to each register response. -/
def RegisterRes.httpStatus : RegisterRes → Nat
  | .badRequest => 400
  | .registered => 200

/-- POST /api/telegram/register (index.js:109-121): requires truthy `chatId`;
stores an order record under key `String(chatId)` with the current timestamp
`now` (the `new Date().toISOString()` value, passed in). -/
def registerHandler (now : String) (st : ServerState) (req : RegisterReq) :
    RegisterRes × ServerState :=
  if req.chatId.isFalsy then (.badRequest, st)
  else
    let c := req.chatId.toJsString
    let entry : OrderInfo :=
      { chatId := c, username := req.username, displayName := req.displayName,
        registeredAt := .str now }
    (.registered, { st with pendingOrders := jset st.pendingOrders (.str c) entry })

/-- Request body of POST /api/payments/create. -/
structure CreateReq where
  chatId : JVal := .undef
  packageId : JVal := .undef
  amount : JVal := .undef
  currency : JVal := .undef
deriving DecidableEq, Repr

/-- The fields of the processor's invoice-creation response that the handler
reads (`response.data.invoice_id`, `response.data.invoice_url`). -/
structure InvoiceData where
  invoice_id : JVal
  invoice_url : JVal
deriving DecidableEq, Repr

/-- Response of POST /api/payments/create. -/
inductive CreateRes where
  | badRequest
  | notRegistered
  | invoiceCreationFailed
  | ok (paymentUrl : JVal) (invoiceId : JVal)
deriving DecidableEq, Repr

/-- HTTP status code attached to each payment-creation response. -/
def CreateRes.httpStatus : CreateRes → Nat
  | .badRequest => 400
  | .notRegistered => 404
  | .invoiceCreationFailed => 500
  | .ok _ _ => 200

/-- POST /api/payments/create (index.js:127-182): validates the four body
fields, requires `pendingOrders.has(String(chatId))`, then performs the
outbound processor call — whose outcome is the `processor` argument, an error
covering both a rejected request and the 10 s timeout — and only on success
stores the second order record keyed by the processor-issued
`invoice.invoice_id` (uncoerced). -/
def createPayment (st : ServerState) (req : CreateReq)
    (processor : Except Unit InvoiceData) : CreateRes × ServerState :=
  if req.chatId.isFalsy || req.packageId.isFalsy || req.amount.isFalsy
      || req.currency.isFalsy then
    (.badRequest, st)
  else if (jget st.pendingOrders (.str req.chatId.toJsString)).isNone then
    (.notRegistered, st)
  else
    match processor with
    | .error _ => (.invoiceCreationFailed, st)
    | .ok inv =>
        let entry : OrderInfo :=
          { chatId := req.chatId.toJsString, packageId := req.packageId,
            amount := req.amount, currency := req.currency }
        (.ok inv.invoice_url inv.invoice_id,
          { st with pendingOrders := jset st.pendingOrders inv.invoice_id entry })

/-- Response of POST /api/oxapay/webhook. -/
inductive WebhookRes where
  | invalidSignature
  | ignored
  | orderNotFound
  | ok
deriving DecidableEq, Repr

/-- HTTP status code attached to each webhook response. -/
def WebhookRes.httpStatus : WebhookRes → Nat
  | .invalidSignature => 401
  | .ignored => 202
  | .orderNotFound => 404
  | .ok => 200

/-- JS `payload.custom?.chatId`: `undefined` when `custom` is absent. -/
def customChatId (payload : WebhookPayloadT) : JVal :=
  match payload.custom with
  | none => .undef
  | some c => c.chatId

/-- POST /api/oxapay/webhook (index.js:187-231): checks the signature (401),
ignores non-`completed` statuses (202), resolves the order by
`pendingOrders.get(invoiceId) || pendingOrders.get(custom?.chatId)` (404 when
neither), stores a fresh activation key (`freshKey` is the generated key, an
external random input; `now` the timestamp), attempts the best-effort Telegram
message (no effect on state or response — errors are caught and logged), then
deletes both order entries and answers ok.  Note the fallback `get` uses the
payload's `custom?.chatId` value as-is, without `String(...)` coercion. -/
def webhookHandler (cfg : Cfg) (freshKey : String) (now : String)
    (st : ServerState) (payload : WebhookPayloadT)
    (providedSignature : Option String) : WebhookRes × ServerState :=
  if ¬ verifyOxaPaySignature cfg payload providedSignature then
    (.invalidSignature, st)
  else if payload.status ≠ .str "completed" then
    (.ignored, st)
  else
    let orderInfo? :=
      match jget st.pendingOrders payload.invoice_id with
      | some o => some o
      | none => jget st.pendingOrders (customChatId payload)
    match orderInfo? with
    | none => (.orderNotFound, st)
    | some orderInfo =>
        let keyEntry : KeyInfo :=
          { chatId := orderInfo.chatId, packageId := orderInfo.packageId,
            createdAt := now }
        let st1 :=
          { st with activationKeys := jset st.activationKeys (.str freshKey) keyEntry }
        let remaining := jdelete (jdelete st1.pendingOrders payload.invoice_id)
          (.str orderInfo.chatId)
        (.ok, { st1 with pendingOrders := remaining })

/-- Request body of POST /api/telegram/verify-key. -/
structure VerifyReq where
  chatId : JVal := .undef
  activationKey : JVal := .undef
deriving DecidableEq, Repr

/-- Response of POST /api/telegram/verify-key. -/
inductive VerifyRes where
  | badRequest
  | invalid
  | mismatch
  | valid (packageId : JVal)
deriving DecidableEq, Repr

/-- HTTP status code attached to each verify-key response. -/
def VerifyRes.httpStatus : VerifyRes → Nat
  | .badRequest => 400
  | .invalid => 404
  | .mismatch => 403
  | .valid _ => 200

/-- POST /api/telegram/verify-key (index.js:237-254): validates the two body
fields, looks the key up (404 when absent), compares `String(keyInfo.chatId)`
(the stored chat id is already a string) with `String(chatId)` (403 on
mismatch), and on match deletes the key and returns its package id. -/
def verifyKey (st : ServerState) (req : VerifyReq) : VerifyRes × ServerState :=
  if req.chatId.isFalsy || req.activationKey.isFalsy then (.badRequest, st)
  else
    match jget st.activationKeys req.activationKey with
    | none => (.invalid, st)
    | some keyInfo =>
        if keyInfo.chatId ≠ req.chatId.toJsString then (.mismatch, st)
        else
          (.valid keyInfo.packageId,
            { st with activationKeys := jdelete st.activationKeys req.activationKey })

/-! Association-list lemmas shared by the claim proofs. -/

theorem jget_jset_self {β : Type} (m : List (JVal × β)) (k : JVal) (v : β) :
    jget (jset m k v) k = some v := by
  induction m with
  | nil => simp [jset, jget]
  | cons p rest ih =>
      obtain ⟨k', v'⟩ := p
      by_cases h : k' = k
      · simp [jset, h, jget]
      · simp [jset, h, jget, ih]

theorem jget_jset_ne {β : Type} (m : List (JVal × β)) (k k2 : JVal) (v : β)
    (h : k2 ≠ k) : jget (jset m k v) k2 = jget m k2 := by
  have h' : k ≠ k2 := Ne.symm h
  induction m with
  | nil => simp [jset, jget, h']
  | cons p rest ih =>
      obtain ⟨k', v'⟩ := p
      by_cases hk : k' = k
      · subst hk
        simp [jset, jget, h']
      · simp only [jset, if_neg hk, jget, ih]

theorem jset_jset {β : Type} (m : List (JVal × β)) (k : JVal) (v1 v2 : β) :
    jset (jset m k v1) k v2 = jset m k v2 := by
  induction m with
  | nil => simp [jset]
  | cons p rest ih =>
      obtain ⟨k', v'⟩ := p
      by_cases h : k' = k
      · simp [jset, h]
      · simp [jset, h, ih]

theorem jget_jdelete_self {β : Type} (m : List (JVal × β)) (k : JVal) :
    jget (jdelete m k) k = none := by
  induction m with
  | nil => simp [jdelete, jget]
  | cons p rest ih =>
      obtain ⟨k', v'⟩ := p
      by_cases h : k' = k
      · simpa [jdelete, List.filter, h] using ih
      · simpa [jdelete, List.filter, h, jget] using ih

theorem jget_jdelete_ne {β : Type} (m : List (JVal × β)) (k k2 : JVal)
    (h : k2 ≠ k) : jget (jdelete m k) k2 = jget m k2 := by
  induction m with
  | nil => simp [jdelete, jget]
  | cons p rest ih =>
      obtain ⟨k', v'⟩ := p
      by_cases hk : k' = k
      · subst hk
        have : k' ≠ k2 := fun hh => h hh.symm
        simpa [jdelete, List.filter, jget, this] using ih
      · by_cases hk2 : k' = k2
        · subst hk2
          simp [jdelete, List.filter, h, jget]
        · simpa [jdelete, List.filter, hk, jget, hk2] using ih

theorem countKey_cons {β : Type} (k' : JVal) (v' : β) (rest : List (JVal × β))
    (k : JVal) :
    countKey ((k', v') :: rest) k = (if k' = k then 1 else 0) + countKey rest k := by
  by_cases h : k' = k
  · simp [countKey, List.filter, h]
    omega
  · simp [countKey, List.filter, h]

theorem countKey_jset_of_le_one {β : Type} (m : List (JVal × β)) (k : JVal) (v : β)
    (h : countKey m k ≤ 1) : countKey (jset m k v) k = 1 := by
  induction m with
  | nil => simp [jset, countKey, List.filter]
  | cons p rest ih =>
      obtain ⟨k', v'⟩ := p
      by_cases hk : k' = k
      · subst hk
        have h0 : countKey rest k' = 0 := by
          rw [countKey_cons] at h
          simp at h
          omega
        simp [jset, countKey_cons, h0]
      · rw [countKey_cons, if_neg hk] at h
        simp only [Nat.zero_add] at h
        simp [jset, hk, countKey_cons, ih h]

/-! Claim theorems. -/

/-- C1: for every activation key `k` present in the store and owned by chat
identifier `c`, `verify(c, k)` returns status valid (HTTP 200) with the key's
associated package identifier and deletes `k` from the store, so that any
second `verify` call with the same code — by any chat identifier — fails with
KeyNotFound (HTTP 404). -/
theorem C1_verify_consumes_key_single_use
    (st : ServerState) (c k : JVal) (ki : KeyInfo)
    (hc : c.isFalsy = false) (hk : k.isFalsy = false)
    (hget : jget st.activationKeys k = some ki)
    (hown : ki.chatId = c.toJsString) :
    verifyKey st ⟨c, k⟩ =
      (.valid ki.packageId, { st with activationKeys := jdelete st.activationKeys k }) ∧
    VerifyRes.httpStatus (.valid ki.packageId) = 200 ∧
    jget (jdelete st.activationKeys k) k = none ∧
    ∀ c2 : JVal, c2.isFalsy = false →
      verifyKey { st with activationKeys := jdelete st.activationKeys k } ⟨c2, k⟩ =
        (.invalid, { st with activationKeys := jdelete st.activationKeys k }) ∧
      VerifyRes.httpStatus .invalid = 404 := by
  refine ⟨?_, rfl, jget_jdelete_self _ _, ?_⟩
  · unfold verifyKey
    simp [hc, hk, hget, hown]
  · intro c2 hc2
    refine ⟨?_, rfl⟩
    unfold verifyKey
    simp [hc2, hk, jget_jdelete_self]

/-- Store used by the C1 witness: one issued key KEY1 owned by chat 123. -/
def c1State : ServerState :=
  ⟨[], [(JVal.str "KEY1", ⟨"123", JVal.str "pro", "T1"⟩)]⟩

/-- C1 witness: the theorem applied to the concrete one-key store. -/
theorem C1_witness :
    (verifyKey c1State ⟨JVal.str "123", JVal.str "KEY1"⟩).1 =
      VerifyRes.valid (JVal.str "pro") ∧
    (verifyKey (verifyKey c1State ⟨JVal.str "123", JVal.str "KEY1"⟩).2
      ⟨JVal.str "123", JVal.str "KEY1"⟩).1 = VerifyRes.invalid := by
  have h := C1_verify_consumes_key_single_use c1State (JVal.str "123")
    (JVal.str "KEY1") ⟨"123", JVal.str "pro", "T1"⟩ rfl rfl rfl rfl
  refine ⟨by rw [h.1], ?_⟩
  have h2 := (h.2.2.2 (JVal.str "123") rfl).1
  rw [h.1]
  rw [h2]

/-- C6: for every stored activation key whose owning chat identifier differs
from the presented one, `verify` fails with OwnerMismatch (HTTP 403) — a
result distinguishable from KeyNotFound — and leaves the whole state, in
particular the Activation Key Store, unchanged. -/
theorem C6_verify_owner_mismatch
    (st : ServerState) (c k : JVal) (ki : KeyInfo)
    (hc : c.isFalsy = false) (hk : k.isFalsy = false)
    (hget : jget st.activationKeys k = some ki)
    (hown : ki.chatId ≠ c.toJsString) :
    verifyKey st ⟨c, k⟩ = (.mismatch, st) ∧
    VerifyRes.httpStatus .mismatch = 403 ∧
    VerifyRes.mismatch ≠ VerifyRes.invalid ∧
    (verifyKey st ⟨c, k⟩).2.activationKeys = st.activationKeys := by
  have hmain : verifyKey st ⟨c, k⟩ = (.mismatch, st) := by
    unfold verifyKey
    simp [hc, hk, hget, hown]
  exact ⟨hmain, rfl, by simp, by rw [hmain]⟩

/-- C6 witness: the theorem applied to the concrete one-key store with a
wrong presenter. -/
theorem C6_witness :
    verifyKey c1State ⟨JVal.str "999", JVal.str "KEY1"⟩ =
      (VerifyRes.mismatch, c1State) := by
  have h := C6_verify_owner_mismatch c1State (JVal.str "999") (JVal.str "KEY1")
    ⟨"123", JVal.str "pro", "T1"⟩ rfl rfl rfl (by decide)
  exact h.1

/-- C8: registering the same chat identifier twice (any field values, any
timestamps) produces exactly the state a single registration with the second
call's values would have produced, and leaves exactly one order entry under
that chat identifier (no duplicates); the count hypothesis holds for every
reachable store, whose keys are unique. -/
theorem C8_register_idempotent_overwrite
    (st : ServerState) (now1 now2 : String) (r1 r2 : RegisterReq)
    (h1 : r1.chatId.isFalsy = false) (h2 : r2.chatId.isFalsy = false)
    (hsame : r1.chatId.toJsString = r2.chatId.toJsString)
    (hcnt : countKey st.pendingOrders (.str r2.chatId.toJsString) ≤ 1) :
    registerHandler now2 (registerHandler now1 st r1).2 r2 =
      registerHandler now2 st r2 ∧
    countKey (registerHandler now2 (registerHandler now1 st r1).2 r2).2.pendingOrders
      (.str r2.chatId.toJsString) = 1 := by
  have heq : registerHandler now2 (registerHandler now1 st r1).2 r2 =
      registerHandler now2 st r2 := by
    unfold registerHandler
    simp [h1, h2, hsame, jset_jset]
  refine ⟨heq, ?_⟩
  rw [heq]
  unfold registerHandler
  simp only [h2, Bool.false_eq_true, if_false]
  exact countKey_jset_of_le_one _ _ _ hcnt

/-- C8 witness: the theorem applied to two concrete registrations of chat 7
from the empty state. -/
theorem C8_witness :
    registerHandler "T2"
        (registerHandler "T1" initialState ⟨JVal.num 7, JVal.str "u1", JVal.undef⟩).2
        ⟨JVal.num 7, JVal.str "u2", JVal.str "D"⟩ =
      registerHandler "T2" initialState ⟨JVal.num 7, JVal.str "u2", JVal.str "D"⟩ ∧
    countKey (registerHandler "T2"
        (registerHandler "T1" initialState ⟨JVal.num 7, JVal.str "u1", JVal.undef⟩).2
        ⟨JVal.num 7, JVal.str "u2", JVal.str "D"⟩).2.pendingOrders
      (.str (JVal.num 7).toJsString) = 1 :=
  C8_register_idempotent_overwrite initialState "T1" "T2"
    ⟨JVal.num 7, JVal.str "u1", JVal.undef⟩ ⟨JVal.num 7, JVal.str "u2", JVal.str "D"⟩
    rfl rfl rfl (by decide)

/-- After deleting key `a` and then key `b`, key `a` is gone. -/
theorem jget_jdelete2_left {β : Type} (m : List (JVal × β)) (a b : JVal) :
    jget (jdelete (jdelete m a) b) a = none := by
  by_cases h : a = b
  · subst h
    exact jget_jdelete_self _ _
  · rw [jget_jdelete_ne (jdelete m a) b a h]
    exact jget_jdelete_self _ _

/-- Webhook, completed status, neither lookup resolves: 404 and no state
change. -/
theorem webhook_completed_notFound
    (cfg : Cfg) (freshKey now : String) (st : ServerState)
    (payload : WebhookPayloadT) (sig : Option String)
    (hsig : verifyOxaPaySignature cfg payload sig = true)
    (hst : payload.status = .str "completed")
    (h1 : jget st.pendingOrders payload.invoice_id = none)
    (h2 : jget st.pendingOrders (customChatId payload) = none) :
    webhookHandler cfg freshKey now st payload sig = (.orderNotFound, st) := by
  unfold webhookHandler
  simp [hsig, hst, h1, h2]

/-- Webhook, completed status, order resolved (directly by invoice id, or by
the chat-id fallback when the invoice id is unknown): the full resulting
state. -/
theorem webhook_completed_ok
    (cfg : Cfg) (freshKey now : String) (st : ServerState)
    (payload : WebhookPayloadT) (sig : Option String) (o : OrderInfo)
    (hsig : verifyOxaPaySignature cfg payload sig = true)
    (hst : payload.status = .str "completed")
    (hres : jget st.pendingOrders payload.invoice_id = some o ∨
      (jget st.pendingOrders payload.invoice_id = none ∧
       jget st.pendingOrders (customChatId payload) = some o)) :
    webhookHandler cfg freshKey now st payload sig =
      (.ok,
       ⟨jdelete (jdelete st.pendingOrders payload.invoice_id) (.str o.chatId),
        jset st.activationKeys (.str freshKey) ⟨o.chatId, o.packageId, now⟩⟩) := by
  obtain ⟨po, ak⟩ := st
  unfold webhookHandler
  rcases hres with h | ⟨h1, h2⟩
  · simp [hsig, hst, h]
  · simp [hsig, hst, h1, h2]

/-- C2: for every webhook request that passes signature verification with
payload status completed, the handler resolves the pending order by invoice
id first, falling back to the chat id in the payload's custom metadata; when
neither resolves it returns OrderNotFound (404) with no state change; when
one resolves it stores a fresh activation key under the generated code with
the resolved order's chat id and package id, deletes both order entries (by
invoice id and by resolved chat id), and returns ok. -/
theorem C2_webhook_completed_resolution
    (cfg : Cfg) (freshKey now : String) (st : ServerState)
    (payload : WebhookPayloadT) (sig : Option String)
    (hsig : verifyOxaPaySignature cfg payload sig = true)
    (hst : payload.status = .str "completed") :
    (jget st.pendingOrders payload.invoice_id = none →
      jget st.pendingOrders (customChatId payload) = none →
      webhookHandler cfg freshKey now st payload sig = (.orderNotFound, st) ∧
      WebhookRes.httpStatus .orderNotFound = 404) ∧
    (∀ o : OrderInfo,
      (jget st.pendingOrders payload.invoice_id = some o ∨
        (jget st.pendingOrders payload.invoice_id = none ∧
         jget st.pendingOrders (customChatId payload) = some o)) →
      webhookHandler cfg freshKey now st payload sig =
        (.ok,
         ⟨jdelete (jdelete st.pendingOrders payload.invoice_id) (.str o.chatId),
          jset st.activationKeys (.str freshKey) ⟨o.chatId, o.packageId, now⟩⟩) ∧
      jget (webhookHandler cfg freshKey now st payload sig).2.activationKeys
        (.str freshKey) = some ⟨o.chatId, o.packageId, now⟩ ∧
      jget (webhookHandler cfg freshKey now st payload sig).2.pendingOrders
        payload.invoice_id = none ∧
      jget (webhookHandler cfg freshKey now st payload sig).2.pendingOrders
        (.str o.chatId) = none) := by
  refine ⟨fun h1 h2 =>
    ⟨webhook_completed_notFound cfg freshKey now st payload sig hsig hst h1 h2, rfl⟩,
    fun o hres => ?_⟩
  have hmain := webhook_completed_ok cfg freshKey now st payload sig o hsig hst hres
  rw [hmain]
  exact ⟨rfl, jget_jset_self _ _ _, jget_jdelete2_left _ _ _,
    jget_jdelete_self _ _⟩

/-- Stand-in for the external lowercase-hex HMAC in concrete instances. -/
def hmacDemo (key msg : String) : String := key ++ ":" ++ msg

/-- Stand-in for the external JSON serialization in concrete instances. -/
def stringifyDemo (p : WebhookPayloadT) : String :=
  p.status.toJsString ++ "|" ++ p.invoice_id.toJsString

/-- Configuration with no callback secret (development fail-open mode). -/
def cfgOpen : Cfg := ⟨none, hmacDemo, stringifyDemo⟩

/-- Configuration with a callback secret configured. -/
def cfgSecret : Cfg := ⟨some "sec", hmacDemo, stringifyDemo⟩

/-- The order entry written by a successful invoice creation for chat 123. -/
def ordInv : OrderInfo :=
  { chatId := "123", packageId := JVal.str "pro", amount := JVal.num 10,
    currency := JVal.str "USDT" }

/-- A state holding one invoice-keyed pending order. -/
def c2State : ServerState := ⟨[(JVal.str "INV1", ordInv)], []⟩

/-- A completed-payment webhook payload for invoice INV1. -/
def c2Payload : WebhookPayloadT := ⟨JVal.str "completed", JVal.str "INV1", none⟩

/-- C2 witness: the theorem applied to a concrete completed webhook resolving
invoice INV1. -/
theorem C2_witness :
    (webhookHandler cfgOpen "KEY1" "T1" c2State c2Payload none).1 = WebhookRes.ok ∧
    jget (webhookHandler cfgOpen "KEY1" "T1" c2State c2Payload none).2.activationKeys
      (JVal.str "KEY1") = some ⟨"123", JVal.str "pro", "T1"⟩ ∧
    jget (webhookHandler cfgOpen "KEY1" "T1" c2State c2Payload none).2.pendingOrders
      (JVal.str "INV1") = none := by
  have h := (C2_webhook_completed_resolution cfgOpen "KEY1" "T1" c2State c2Payload
    none rfl rfl).2 ordInv (Or.inl (by decide))
  exact ⟨by rw [h.1], h.2.1, h.2.2.1⟩

/-- C4: when the four body fields pass validation, invoice creation fails
with NotRegistered (404) and no state change whenever the chat id has no
pending-order entry — regardless of the processor — and fails with
InvoiceCreationFailed (500) and no state change (registration included)
whenever the processor call errors or times out; the invoice-keyed entry is
written only on processor success, with exactly the duplicated order data. -/
theorem C4_createPayment_error_contract
    (st : ServerState) (req : CreateReq)
    (h1 : req.chatId.isFalsy = false) (h2 : req.packageId.isFalsy = false)
    (h3 : req.amount.isFalsy = false) (h4 : req.currency.isFalsy = false) :
    (jget st.pendingOrders (.str req.chatId.toJsString) = none →
      ∀ processor, createPayment st req processor = (.notRegistered, st) ∧
        CreateRes.httpStatus .notRegistered = 404) ∧
    ((jget st.pendingOrders (.str req.chatId.toJsString)).isSome →
      ∀ e, createPayment st req (.error e) = (.invoiceCreationFailed, st) ∧
        CreateRes.httpStatus .invoiceCreationFailed = 500) ∧
    ((jget st.pendingOrders (.str req.chatId.toJsString)).isSome →
      ∀ inv, createPayment st req (.ok inv) =
        (.ok inv.invoice_url inv.invoice_id,
         { st with pendingOrders := (jset st.pendingOrders inv.invoice_id
            ⟨req.chatId.toJsString, .undef, .undef, .undef,
              req.packageId, req.amount, req.currency⟩) })) := by
  refine ⟨fun hn proc => ⟨?_, rfl⟩, fun hs e => ⟨?_, rfl⟩, fun hs inv => ?_⟩
  · unfold createPayment
    simp [h1, h2, h3, h4, hn]
  · obtain ⟨o, ho⟩ := Option.isSome_iff_exists.mp hs
    unfold createPayment
    simp [h1, h2, h3, h4, ho]
  · obtain ⟨o, ho⟩ := Option.isSome_iff_exists.mp hs
    unfold createPayment
    simp [h1, h2, h3, h4, ho]

/-- A create-invoice request for chat 123 and package pro. -/
def c4Req : CreateReq :=
  ⟨JVal.str "123", JVal.str "pro", JVal.num 10, JVal.str "USDT"⟩

/-- A state holding only the registration entry of chat 123. -/
def regState : ServerState :=
  (registerHandler "T0" initialState ⟨JVal.str "123", JVal.undef, JVal.undef⟩).2

/-- C4 witness: the theorem applied to the empty store (NotRegistered) and to
a registered chat with a failing processor call (InvoiceCreationFailed). -/
theorem C4_witness :
    createPayment initialState c4Req (.error ()) = (.notRegistered, initialState) ∧
    createPayment regState c4Req (.error ()) = (.invoiceCreationFailed, regState) := by
  have ha := (C4_createPayment_error_contract initialState c4Req rfl rfl rfl rfl).1
    rfl (.error ())
  have hb := ((C4_createPayment_error_contract regState c4Req rfl rfl rfl rfl).2.1
    (by decide) ())
  exact ⟨ha.1, hb.1⟩

/-- C3: with no callback secret configured the verifier accepts every payload
and signature (fail-open); with a secret configured it accepts exactly the
signature equal to the keyed hash of the serialized payload, and the webhook
handler answers 401 with no state change to any request whose signature
differs, regardless of payload content.  The verifier is a total function
(it raises no exception). -/
theorem C3_signature_verifier_contract (cfg : Cfg) :
    (cfg.callbackSecret = none →
      ∀ payload sig, verifyOxaPaySignature cfg payload sig = true) ∧
    (∀ secret, cfg.callbackSecret = some secret →
      ∀ payload sig,
        (verifyOxaPaySignature cfg payload sig = true ↔
          sig = some (cfg.hmacSha256Hex secret (cfg.stringify payload))) ∧
        (sig ≠ some (cfg.hmacSha256Hex secret (cfg.stringify payload)) →
          ∀ freshKey now st,
            webhookHandler cfg freshKey now st payload sig =
              (.invalidSignature, st) ∧
            WebhookRes.httpStatus .invalidSignature = 401)) := by
  constructor
  · intro h payload sig
    unfold verifyOxaPaySignature
    rw [h]
  · intro secret h payload sig
    have hv : verifyOxaPaySignature cfg payload sig =
        (sig == some (cfg.hmacSha256Hex secret (cfg.stringify payload))) := by
      unfold verifyOxaPaySignature
      rw [h]
    constructor
    · rw [hv]
      exact beq_iff_eq
    · intro hne freshKey now st
      have hfalse : verifyOxaPaySignature cfg payload sig = false := by
        rw [hv]
        exact beq_eq_false_iff_ne.mpr hne
      refine ⟨?_, rfl⟩
      unfold webhookHandler
      simp [hfalse]

/-- C3 witness: the theorem applied to the two concrete configurations — the
open one accepts an arbitrary signature, the secret one accepts exactly the
keyed hash and rejects a tampered signature with 401. -/
theorem C3_witness :
    verifyOxaPaySignature cfgOpen c2Payload (some "whatever") = true ∧
    verifyOxaPaySignature cfgSecret c2Payload
      (some (hmacDemo "sec" (stringifyDemo c2Payload))) = true ∧
    webhookHandler cfgSecret "K" "T" initialState c2Payload (some "bad") =
      (WebhookRes.invalidSignature, initialState) := by
  refine ⟨(C3_signature_verifier_contract cfgOpen).1 rfl c2Payload (some "whatever"),
    ((C3_signature_verifier_contract cfgSecret).2 "sec" rfl c2Payload _).1.mpr rfl,
    (((C3_signature_verifier_contract cfgSecret).2 "sec" rfl c2Payload
      (some "bad")).2 (by decide) "K" "T" initialState).1⟩

/-- C5 counterexample: a request whose payload status is waiting (not
completed) but whose signature is invalid under the configured secret is
answered with 401 InvalidSignature, not with the ignored/accepted 202 result
the claim promises for every non-completed request. -/
theorem C5_counterexample :
    (⟨JVal.str "waiting", JVal.str "I", none⟩ : WebhookPayloadT).status ≠
      JVal.str "completed" ∧
    (webhookHandler cfgSecret "K" "T" initialState
      ⟨JVal.str "waiting", JVal.str "I", none⟩ (some "bad")).1 =
      WebhookRes.invalidSignature ∧
    WebhookRes.invalidSignature ≠ WebhookRes.ignored ∧
    WebhookRes.httpStatus WebhookRes.invalidSignature = 401 := by
  decide

/-- C5 (amended): for every webhook request whose payload status is not
completed, the handler changes no state — in particular it never creates an
activation key — and, provided the request passes signature verification,
returns the ignored/accepted (202) result; a request failing verification is
rejected with 401 instead. -/
theorem C5_webhook_non_completed_no_state_change
    (cfg : Cfg) (freshKey now : String) (st : ServerState)
    (payload : WebhookPayloadT) (sig : Option String)
    (hst : payload.status ≠ .str "completed") :
    (webhookHandler cfg freshKey now st payload sig).2 = st ∧
    (verifyOxaPaySignature cfg payload sig = true →
      webhookHandler cfg freshKey now st payload sig = (.ignored, st) ∧
      WebhookRes.httpStatus .ignored = 202) ∧
    (verifyOxaPaySignature cfg payload sig = false →
      webhookHandler cfg freshKey now st payload sig = (.invalidSignature, st)) := by
  by_cases hv : verifyOxaPaySignature cfg payload sig = true
  · have hmain : webhookHandler cfg freshKey now st payload sig = (.ignored, st) := by
      unfold webhookHandler
      simp [hv, hst]
    refine ⟨by rw [hmain], fun _ => ⟨hmain, rfl⟩, fun hcon => ?_⟩
    rw [hv] at hcon
    exact absurd hcon (by simp)
  · have hf : verifyOxaPaySignature cfg payload sig = false :=
      Bool.eq_false_iff.mpr hv
    have hmain : webhookHandler cfg freshKey now st payload sig =
        (.invalidSignature, st) := by
      unfold webhookHandler
      simp [hf]
    exact ⟨by rw [hmain], fun hcon => absurd hcon hv, fun _ => hmain⟩

/-- C5 witness: the amended theorem applied to a concrete waiting-status
request under the open configuration. -/
theorem C5_witness :
    webhookHandler cfgOpen "K" "T" c1State
      ⟨JVal.str "waiting", JVal.str "I", none⟩ none =
      (WebhookRes.ignored, c1State) :=
  ((C5_webhook_non_completed_no_state_change cfgOpen "K" "T" c1State
    ⟨JVal.str "waiting", JVal.str "I", none⟩ none (by decide)).2.1 rfl).1

/-- A completed-payment payload for unknown invoice INV9 whose custom
metadata carries chat id 123. -/
def c7Payload : WebhookPayloadT :=
  ⟨JVal.str "completed", JVal.str "INV9", some ⟨JVal.str "123"⟩⟩

/-- C7 counterexample: when the webhook resolves the order via the chat-id
fallback against an entry created only by register (which stores no package
identifier), the activation key it stores maps to an undefined package
identifier, refuting the claim for exactly the case it singles out. -/
theorem C7_counterexample :
    jget regState.pendingOrders (JVal.str "INV9") = none ∧
    (webhookHandler cfgOpen "KEY2" "T2" regState c7Payload none).1 =
      WebhookRes.ok ∧
    jget (webhookHandler cfgOpen "KEY2" "T2" regState c7Payload none).2.activationKeys
      (JVal.str "KEY2") = some ⟨"123", JVal.undef, "T2"⟩ := by
  decide

/-- C7 (amended): every activation key stored by the webhook handler maps to
exactly one buyer — the resolved order's chat identifier, always a defined
string — and carries exactly the resolved order's packageId field.  That
field is the validated (truthy, hence defined) package identifier when the
resolved entry was written by invoice creation, but it is undefined when the
entry was written only by register, including the chat-id-fallback case. -/
theorem C7_webhook_key_contents
    (cfg : Cfg) (freshKey now : String) (st : ServerState)
    (payload : WebhookPayloadT) (sig : Option String) (o : OrderInfo)
    (hsig : verifyOxaPaySignature cfg payload sig = true)
    (hst : payload.status = .str "completed")
    (hres : jget st.pendingOrders payload.invoice_id = some o ∨
      (jget st.pendingOrders payload.invoice_id = none ∧
       jget st.pendingOrders (customChatId payload) = some o)) :
    jget (webhookHandler cfg freshKey now st payload sig).2.activationKeys
      (.str freshKey) = some ⟨o.chatId, o.packageId, now⟩ ∧
    (∀ (now1 : String) (st1 : ServerState) (r : RegisterReq),
      r.chatId.isFalsy = false →
      jget (registerHandler now1 st1 r).2.pendingOrders (.str r.chatId.toJsString) =
        some ⟨r.chatId.toJsString, r.username, r.displayName, .str now1,
          .undef, .undef, .undef⟩) ∧
    (∀ (st1 : ServerState) (rq : CreateReq) (inv : InvoiceData),
      rq.chatId.isFalsy = false → rq.packageId.isFalsy = false →
      rq.amount.isFalsy = false → rq.currency.isFalsy = false →
      (jget st1.pendingOrders (.str rq.chatId.toJsString)).isSome →
      jget (createPayment st1 rq (.ok inv)).2.pendingOrders inv.invoice_id =
        some ⟨rq.chatId.toJsString, .undef, .undef, .undef,
          rq.packageId, rq.amount, rq.currency⟩ ∧
      rq.packageId ≠ JVal.undef) := by
  refine ⟨?_, ?_, ?_⟩
  · rw [webhook_completed_ok cfg freshKey now st payload sig o hsig hst hres]
    exact jget_jset_self _ _ _
  · intro now1 st1 r hr
    unfold registerHandler
    simp only [hr, Bool.false_eq_true, if_false]
    exact jget_jset_self _ _ _
  · intro st1 rq inv hc hp ha hcu hreg
    obtain ⟨ord, hord⟩ := Option.isSome_iff_exists.mp hreg
    constructor
    · unfold createPayment
      simp only [hc, hp, ha, hcu, Bool.or_self, Bool.false_eq_true, if_false, hord]
      simp [hord]
      exact jget_jset_self _ _ _
    · intro heq
      rw [heq] at hp
      simp [JVal.isFalsy] at hp

/-- C7 witness: the amended theorem applied to the concrete fallback case —
the key stored for a register-only order carries that order's (undefined)
packageId field. -/
theorem C7_witness :
    jget (webhookHandler cfgOpen "KEY2" "T2" regState c7Payload none).2.activationKeys
      (JVal.str "KEY2") = some ⟨"123", JVal.undef, "T2"⟩ :=
  (C7_webhook_key_contents cfgOpen "KEY2" "T2" regState c7Payload none
    ⟨"123", JVal.undef, JVal.undef, JVal.str "T0", JVal.undef, JVal.undef,
      JVal.undef⟩ rfl rfl (Or.inr ⟨by decide, by decide⟩)).1

/-- The accumulator of `Nat.toDigitsCore` never shrinks. -/
theorem toDigitsCore_length_mono (b : Nat) :
    ∀ (fuel n : Nat) (ds : List Char),
      ds.length ≤ (Nat.toDigitsCore b fuel n ds).length := by
  intro fuel
  induction fuel with
  | zero => intro n ds; simp [Nat.toDigitsCore]
  | succ f ih =>
      intro n ds
      unfold Nat.toDigitsCore
      by_cases h : n / b = 0
      · simp [h]
      · simp only [h, if_false]
        calc ds.length ≤ (Nat.digitChar (n % b) :: ds).length := by simp
          _ ≤ _ := ih (n / b) (Nat.digitChar (n % b) :: ds)

/-- The decimal representation of a natural number is never empty. -/
theorem nat_repr_ne_empty (n : Nat) : Nat.repr n ≠ "" := by
  intro h
  have hdata : (Nat.toDigits 10 n) = [] := by
    have := congrArg String.data h
    simpa [Nat.repr, List.asString] using this
  have hlen : 1 ≤ (Nat.toDigits 10 n).length := by
    unfold Nat.toDigits Nat.toDigitsCore
    by_cases hd : n / 10 = 0
    · simp [hd]
    · simp only [hd, if_false]
      calc 1 = ([Nat.digitChar (n % 10)]).length := rfl
        _ ≤ _ := toDigitsCore_length_mono 10 n (n / 10) [Nat.digitChar (n % 10)]
  rw [hdata] at hlen
  simp at hlen

/-- JS `String(n)` of an integer is never the empty string. -/
theorem int_toString_ne_empty (n : Int) : toString n ≠ "" := by
  show Int.repr n ≠ ""
  cases n with
  | ofNat m => exact nat_repr_ne_empty m
  | negSucc m =>
      intro h
      have hdata := congrArg String.data h
      rcases hrep : Nat.repr (m + 1) with ⟨l⟩
      rw [Int.repr, hrep] at hdata
      exact List.cons_ne_nil '-' l hdata

/-- C10 counterexample: chat identifier 0 supplied as a JSON number is falsy
and rejected as missing while its decimal string "0" registers; and the
webhook's fallback lookup does not coerce `custom.chatId`, so the numeric
form 123 fails to resolve an order stored under the string "123" while the
string form succeeds. -/
theorem C10_counterexample :
    (registerHandler "T" initialState ⟨JVal.num 0, JVal.undef, JVal.undef⟩).1 =
      RegisterRes.badRequest ∧
    (registerHandler "T" initialState ⟨JVal.str "0", JVal.undef, JVal.undef⟩).1 =
      RegisterRes.registered ∧
    (webhookHandler cfgOpen "K" "T1" regState
      ⟨JVal.str "completed", JVal.str "NOPE", some ⟨JVal.num 123⟩⟩ none).1 =
      WebhookRes.orderNotFound ∧
    (webhookHandler cfgOpen "K" "T1" regState
      ⟨JVal.str "completed", JVal.str "NOPE", some ⟨JVal.str "123"⟩⟩ none).1 =
      WebhookRes.ok := by
  decide

/-- C10 (amended): register, createInvoice and verify coerce the chat
identifier through JS String() before use, so for every nonzero JSON-number
chat identifier each of them behaves identically to its decimal string (zero
is falsy and rejected as a missing field, unlike the string "0"); in
particular a key issued to chat "123" verifies when presented with the
number 123.  The webhook stores and deletes by the resolved order's (string)
chat identifier, but its fallback lookup uses the payload's custom chat id
uncoerced, so a numeric custom chat id never matches the string-keyed
store. -/
theorem C10_numeric_chatId_coercion (n : Int) (hn : n ≠ 0) :
    (∀ (now : String) (st : ServerState) (u d : JVal),
      registerHandler now st ⟨.num n, u, d⟩ =
        registerHandler now st ⟨.str (toString n), u, d⟩) ∧
    (∀ (st : ServerState) (p a c : JVal) (proc : Except Unit InvoiceData),
      createPayment st ⟨.num n, p, a, c⟩ proc =
        createPayment st ⟨.str (toString n), p, a, c⟩ proc) ∧
    (∀ (st : ServerState) (k : JVal),
      verifyKey st ⟨.num n, k⟩ = verifyKey st ⟨.str (toString n), k⟩) := by
  have hfal : (JVal.num n).isFalsy = false := by
    simp [JVal.isFalsy, hn]
  have hfal2 : (JVal.str (toString n)).isFalsy = false := by
    simp [JVal.isFalsy, int_toString_ne_empty n]
  refine ⟨fun now st u d => ?_, fun st p a c proc => ?_, fun st k => ?_⟩
  · simp [registerHandler, hfal, hfal2, JVal.toJsString]
  · simp [createPayment, hfal, hfal2, JVal.toJsString]
  · simp [verifyKey, hfal, hfal2, JVal.toJsString]

/-- C10 witness: the amended theorem applied at 123 — a key issued to chat
"123" verifies when the chat identifier is presented as the number 123. -/
theorem C10_witness :
    verifyKey c1State ⟨JVal.num 123, JVal.str "KEY1"⟩ =
      verifyKey c1State ⟨JVal.str "123", JVal.str "KEY1"⟩ ∧
    (verifyKey c1State ⟨JVal.num 123, JVal.str "KEY1"⟩).1 =
      VerifyRes.valid (JVal.str "pro") := by
  have h := (C10_numeric_chatId_coercion 123 (by decide)).2.2 c1State
    (JVal.str "KEY1")
  have ht : toString (123 : Int) = "123" := rfl
  rw [ht] at h
  exact ⟨h, by rw [h]; decide⟩

/-- The sixteen characters a lowercase hex digit can be (the alphabet of the
dash-separated groups of a v4 UUID as produced by the uuid package). -/
def lowerHexChars : List Char := "0123456789abcdef".data

/-- Lowercase hex digit test. -/
def isLowerHex (c : Char) : Bool := decide (c ∈ lowerHexChars)

/-- The uppercase alphanumeric alphabet (digits and capital letters). -/
def upperAlnumChars : List Char :=
  "0123456789ABCDEFGHIJKLMNOPQRSTUVWXYZ".data

/-- Uppercase alphanumeric test. -/
def isUpperAlnum (c : Char) : Bool := decide (c ∈ upperAlnumChars)

/-- A lowercase hex digit is not the dash separator. -/
theorem lowerHex_ne_dash (c : Char) (h : isLowerHex c = true) : c ≠ '-' := by
  have hm : c ∈ lowerHexChars := of_decide_eq_true h
  fin_cases hm <;> decide

/-- Uppercasing a lowercase hex digit yields an uppercase alphanumeric
character. -/
theorem toUpper_lowerHex_isUpperAlnum (c : Char) (h : isLowerHex c = true) :
    isUpperAlnum c.toUpper = true := by
  have hm : c ∈ lowerHexChars := of_decide_eq_true h
  fin_cases hm <;> decide

/-- Uppercasing a lowercase hex digit never yields the dash separator. -/
theorem toUpper_lowerHex_ne_dash (c : Char) (h : isLowerHex c = true) :
    c.toUpper ≠ '-' := by
  have hm : c ∈ lowerHexChars := of_decide_eq_true h
  fin_cases hm <;> decide

/-- The canonical textual form of a version-4 UUID as emitted by the uuid
package's v4 generator: five dash-separated lowercase-hex groups of lengths
8, 4, 4, 4 and 12 (128 bits in all), with the version nibble 4 leading the
third group and a variant nibble in 8, 9, a, b leading the fourth. -/
def IsUuidV4 (s : String) : Prop :=
  ∃ g1 g2 g3 g4 g5 : List Char,
    s.data = g1 ++ '-' :: (g2 ++ '-' :: (g3 ++ '-' :: (g4 ++ '-' :: g5))) ∧
    g1.length = 8 ∧ g2.length = 4 ∧ g3.length = 4 ∧ g4.length = 4 ∧
    g5.length = 12 ∧
    (∀ c ∈ g1, isLowerHex c = true) ∧ (∀ c ∈ g2, isLowerHex c = true) ∧
    (∀ c ∈ g3, isLowerHex c = true) ∧ (∀ c ∈ g4, isLowerHex c = true) ∧
    (∀ c ∈ g5, isLowerHex c = true) ∧
    g3.head? = some '4' ∧
    (∃ c, g4.head? = some c ∧ (c = '8' ∨ c = '9' ∨ c = 'a' ∨ c = 'b'))

/-- C9: for every v4-UUID input, the generated activation key is exactly 32
characters long, every character is uppercase alphanumeric, and no separator
(dash) character remains — the key being, by definition, the
cryptographically random 128-bit identifier with dashes stripped and letters
uppercased. -/
theorem C9_generateActivationKey_format (u : String) (hu : IsUuidV4 u) :
    (generateActivationKey u).length = 32 ∧
    (∀ c ∈ (generateActivationKey u).data, isUpperAlnum c = true) ∧
    (∀ c ∈ (generateActivationKey u).data, c ≠ '-') := by
  obtain ⟨g1, g2, g3, g4, g5, hdata, h1, h2, h3, h4, h5,
    hh1, hh2, hh3, hh4, hh5, -, -⟩ := hu
  have hfi : ∀ g : List Char, (∀ c ∈ g, isLowerHex c = true) →
      g.filter (fun c => decide (c ≠ '-')) = g := by
    intro g hg
    rw [List.filter_eq_self]
    intro a ha
    exact decide_eq_true (lowerHex_ne_dash a (hg a ha))
  have hdash : ∀ l : List Char,
      ('-' :: l).filter (fun c => decide (c ≠ '-')) =
        l.filter (fun c => decide (c ≠ '-')) := by
    intro l
    simp [List.filter_cons]
  have hfilter : u.data.filter (fun c => decide (c ≠ '-')) =
      g1 ++ (g2 ++ (g3 ++ (g4 ++ g5))) := by
    rw [hdata, List.filter_append, hdash, List.filter_append, hdash,
        List.filter_append, hdash, List.filter_append, hdash,
        hfi g1 hh1, hfi g2 hh2, hfi g3 hh3, hfi g4 hh4, hfi g5 hh5]
  have hmem : ∀ c ∈ g1 ++ (g2 ++ (g3 ++ (g4 ++ g5))), isLowerHex c = true := by
    intro c hc
    simp only [List.mem_append] at hc
    rcases hc with h | h | h | h | h
    exacts [hh1 c h, hh2 c h, hh3 c h, hh4 c h, hh5 c h]
  refine ⟨?_, ?_, ?_⟩
  · show ((u.data.filter (fun c => decide (c ≠ '-'))).map Char.toUpper).length = 32
    rw [List.length_map, hfilter]
    simp [h1, h2, h3, h4, h5]
  · intro c hc
    have hc' : c ∈ (u.data.filter (fun c => decide (c ≠ '-'))).map Char.toUpper := hc
    rw [hfilter] at hc'
    obtain ⟨c0, hc0, rfl⟩ := List.mem_map.mp hc'
    exact toUpper_lowerHex_isUpperAlnum c0 (hmem c0 hc0)
  · intro c hc
    have hc' : c ∈ (u.data.filter (fun c => decide (c ≠ '-'))).map Char.toUpper := hc
    rw [hfilter] at hc'
    obtain ⟨c0, hc0, rfl⟩ := List.mem_map.mp hc'
    exact toUpper_lowerHex_ne_dash c0 (hmem c0 hc0)

/-- C9 witness: the theorem applied to a concrete v4 UUID. -/
theorem C9_witness :
    IsUuidV4 "9f2c4e10-3a5b-4c7d-8e9f-0a1b2c3d4e5f" ∧
    (generateActivationKey "9f2c4e10-3a5b-4c7d-8e9f-0a1b2c3d4e5f").length = 32 ∧
    (∀ c ∈ (generateActivationKey "9f2c4e10-3a5b-4c7d-8e9f-0a1b2c3d4e5f").data,
      isUpperAlnum c = true) ∧
    (∀ c ∈ (generateActivationKey "9f2c4e10-3a5b-4c7d-8e9f-0a1b2c3d4e5f").data,
      c ≠ '-') := by
  have hu : IsUuidV4 "9f2c4e10-3a5b-4c7d-8e9f-0a1b2c3d4e5f" :=
    ⟨"9f2c4e10".data, "3a5b".data, "4c7d".data, "8e9f".data,
      "0a1b2c3d4e5f".data, by decide, by decide, by decide, by decide, by decide,
      by decide, by decide, by decide, by decide, by decide, by decide, by decide,
      ⟨'8', by decide, by decide⟩⟩
  exact ⟨hu, (C9_generateActivationKey_format _ hu).1,
    (C9_generateActivationKey_format _ hu).2.1,
    (C9_generateActivationKey_format _ hu).2.2⟩
